import Mathlib

/-!
# src_test: a resampling test harness (main.cpp)

A shallow embedding of `main.cpp` and a verification of its streaming loop,
its resampler factory and its command-line checks.

Conventions of the embedding.

* `std::size_t` is 64 bits wide and `unsigned int` 32 bits wide; every
  addition and subtraction the source performs on them is taken modulo the
  width (`add_sz`, `sub_sz`, `frame_size`). The products that address a
  buffer (`consumed * channel_count`, `in_size * channel_count`) are exact:
  they count samples of a buffer that was allocated with
  `in_frame_size * channel_count` samples.
* `std::string` is a list of characters.
* A C++ exception is the error side of `Except`; the two exception classes
  the source throws are the two constructors of `Exception`.
* The collaborators that are not part of the repository (libsndfile, speex,
  soxr, the stream extraction of the C++ library) are either parameters
  (`Libs`, `World`, the `process` argument of the loop) or small models whose
  doc comment says what they stand for.
* Loops that need not terminate take a fuel argument and return `none` when
  it runs out.
-/

namespace SrcTest

/-! ## Machine arithmetic -/

/-- Number of values of `std::size_t` (64 bits). -/
def SIZE_MOD : Nat := 18446744073709551616

/-- Number of values of `unsigned int` (32 bits). -/
def UINT_MOD : Nat := 4294967296

/-- Largest `int`. -/
def INT_MAX : Int := 2147483647

/-- Smallest `int`. -/
def INT_MIN : Int := -2147483648

/-- Addition of two `std::size_t` values. -/
def add_sz (a b : Nat) : Nat := (a + b) % SIZE_MOD

/-- Subtraction of two `std::size_t` values (both below `SIZE_MOD`): wraps
around when `a < b`. -/
def sub_sz (a b : Nat) : Nat := (a + SIZE_MOD - b % SIZE_MOD) % SIZE_MOD

/-- Conversion of an `int` to `unsigned int`. -/
def to_unsigned (x : Int) : Nat := (x % (UINT_MOD : Int)).toNat

/-- Audio frame duration, in ms (`main.cpp` line 15). -/
def frame_duration : Nat := 20

/-- The chunk size of a stream of the given rate, as lines 184 and 185 compute
it: `(samplerate() * frame_duration + 999u) / 1000u`, where the `int` rate is
converted to `unsigned int` and the product and the sum are 32-bit unsigned. -/
def frame_size (samplerate : Int) : Nat :=
  ((to_unsigned samplerate * frame_duration) % UINT_MOD + 999) % UINT_MOD / 1000

/-! ## Exceptions, strings and stream extraction -/

/-- The exceptions `main.cpp` throws: `std::invalid_argument` (the spec's
`ConfigError`) and `std::runtime_error`, each with its message. -/
inductive Exception where
  | invalid_argument (what : String)
  | runtime_error (what : String)
  deriving DecidableEq, Repr

/-- The call `s.substr(pos, n)` of `std::string` for `pos` within the string. -/
def substr (s : List Char) (pos n : Nat) : List Char := (s.drop pos).take n

/-- The call `s.substr(pos)` of `std::string` for `pos` within the string
(for `pos` beyond the end the C++ call throws `std::out_of_range`; the source
only calls it with `pos = 6` on a string of at least six characters). -/
def substr_from (s : List Char) (pos : Nat) : List Char := s.drop pos

/-- The white space that formatted stream extraction skips (`std::isspace` in
the classic locale): space, `\t`, `\n`, `\v`, `\f`, `\r`. -/
def isspace (c : Char) : Bool :=
  c.toNat = 32 || (9 ≤ c.toNat && c.toNat ≤ 13)

/-- The value of a run of decimal digits. -/
def digits_value (ds : List Char) : Nat :=
  ds.foldl (fun acc c => 10 * acc + (c.toNat - 48)) 0

/-- The value stored in an `int` for a field that is out of range: the
nearest bound (C++11 `num_get`). -/
def clamp_int (v : Int) : Int :=
  if v < INT_MIN then INT_MIN else if INT_MAX < v then INT_MAX else v

/-- Strips the optional sign of a numeric field: whether the field is negative,
and what follows the sign. -/
def split_sign : List Char → Bool × List Char
  | c :: t => if c = '-' then (true, t) else if c = '+' then (false, t) else (false, c :: t)
  | [] => (false, [])

/-- The statement `int v = 0; std::istringstream strm(s); strm >> v;` of the
C++ library, which is not part of the repository: leading white space is
skipped, an optional sign and the longest run of decimal digits are read,
whatever follows is left unread; with no digit the extraction fails and
`v` is `0`; a value outside `int` is stored as the nearest bound. -/
def istream_extract_int (s : List Char) : Int :=
  let field := split_sign (s.dropWhile isspace)
  let ds := field.2.takeWhile Char.isDigit
  if ds = [] then 0
  else clamp_int (if field.1 then -(digits_value ds : Int) else (digits_value ds : Int))

/-! ## Constants of the external headers -/

/-- The header constant `SF_FORMAT_PCM_16` of `sndfile.h`. -/
def SF_FORMAT_PCM_16 : Nat := 0x0002
/-- The header constant `SF_FORMAT_PCM_32` of `sndfile.h`. -/
def SF_FORMAT_PCM_32 : Nat := 0x0004
/-- The header constant `SF_FORMAT_FLOAT` of `sndfile.h`. -/
def SF_FORMAT_FLOAT : Nat := 0x0006
/-- The header constant `SF_FORMAT_SUBMASK` of `sndfile.h`. -/
def SF_FORMAT_SUBMASK : Nat := 0x0000FFFF
/-- The header constant `SF_FORMAT_WAV` of `sndfile.h`. -/
def SF_FORMAT_WAV : Nat := 0x010000

/-- The quality recipes of `soxr.h` that `create_resampler` names. -/
inductive SoxrRecipe where
  | SOXR_QQ | SOXR_LQ | SOXR_MQ | SOXR_HQ | SOXR_VHQ
  deriving DecidableEq, Repr

/-- The sample datatypes of `soxr.h` that `soxr_resampler` names. -/
inductive SoxrDatatype where
  | SOXR_INT16_I | SOXR_INT32_I | SOXR_FLOAT32_I
  deriving DecidableEq, Repr

/-! ## The resampler adapters (lines 17 to 113) -/

/-- What one call of `resampler_base::process` leaves behind: the engine after
the call, the two counts it stores through its reference parameters, and the
output buffer. -/
structure ProcessResult (ρ α : Type) where
  resampler : ρ
  in_consumed : Nat
  out_produced : Nat
  out_samples : List α

/-- The signature of `resampler_base::process`: the engine, `in_samples`,
`in_size`, the output buffer `out_samples` and `out_size`. A null `in_samples`
is the empty list. -/
abbrev Process (ρ α : Type) := ρ → List α → Nat → List α → Nat → ProcessResult ρ α

/-- The entry points of the speex and soxr libraries that `main.cpp` calls.
`σ` is the type of an engine handle (`SpeexResamplerState*`, `soxr_t`); a
creation function returns `none` for a null handle. -/
structure Libs (σ α : Type) where
  speex_resampler_init : (nb_channels in_rate out_rate quality : Int) → Option σ
  speex_resampler_skip_zeros : σ → σ
  speex_resampler_process_interleaved_int : Process σ α
  speex_resampler_process_interleaved_float : Process σ α
  soxr_create : (in_rate out_rate num_channels : Int) → SoxrDatatype → SoxrRecipe → Option σ
  soxr_process : Process σ α

/-- A constructed adapter: which of the three classes it is, and its
`m_state`. -/
inductive Resampler (σ : Type) where
  | speex_int (m_state : σ)
  | speex_float (m_state : σ)
  | soxr (m_state : σ)
  deriving DecidableEq, Repr

/-- The constructor of `speex_resampler_base` (lines 28 to 34). -/
def speex_resampler_base_new {σ α : Type} (L : Libs σ α)
    (in_rate in_channels out_rate quality : Int) : Except Exception σ :=
  match L.speex_resampler_init in_channels in_rate out_rate quality with
  | none => .error (.runtime_error "Failed to create speex resampler context")
  | some m_state => .ok (L.speex_resampler_skip_zeros m_state)

/-- The constructor of `speex_int_resampler` (line 45). -/
def speex_int_resampler_new {σ α : Type} (L : Libs σ α)
    (in_rate in_channels out_rate quality : Int) : Except Exception (Resampler σ) :=
  (speex_resampler_base_new L in_rate in_channels out_rate quality).map Resampler.speex_int

/-- The constructor of `speex_float_resampler` (line 61). -/
def speex_float_resampler_new {σ α : Type} (L : Libs σ α)
    (in_rate in_channels out_rate quality : Int) : Except Exception (Resampler σ) :=
  (speex_resampler_base_new L in_rate in_channels out_rate quality).map Resampler.speex_float

/-- The `switch (in_format)` of the constructor of `soxr_resampler` (lines 82
to 95): the datatype of the io spec, or the exception of the default case. -/
def soxr_io_spec_of (in_format : Nat) : Except Exception SoxrDatatype :=
  if in_format = SF_FORMAT_PCM_16 then .ok .SOXR_INT16_I
  else if in_format = SF_FORMAT_PCM_32 then .ok .SOXR_INT32_I
  else if in_format = SF_FORMAT_FLOAT then .ok .SOXR_FLOAT32_I
  else .error (.invalid_argument "Unsupported sample format for soxr")

/-- The constructor of `soxr_resampler` (lines 79 to 102). -/
def soxr_resampler_new {σ α : Type} (L : Libs σ α)
    (in_rate in_channels : Int) (in_format : Nat) (out_rate : Int) (recipe : SoxrRecipe) :
    Except Exception (Resampler σ) :=
  match soxr_io_spec_of in_format with
  | .error e => .error e
  | .ok io_spec =>
    match L.soxr_create in_rate out_rate in_channels io_spec recipe with
    | none => .error (.runtime_error "Failed to create soxr context")
    | some m_state => .ok (.soxr m_state)

/-- The virtual call `resampler.process(...)`: the speex adapters pass the two
sizes through `spx_uint32_t` locals (lines 51 and 67), the soxr adapter passes
them on as they are (line 111). -/
def Resampler.process {σ α : Type} (L : Libs σ α) : Process (Resampler σ) α :=
  fun r in_samples in_size out_samples out_size =>
    match r with
    | .speex_int s =>
      let p := L.speex_resampler_process_interleaved_int s in_samples (in_size % UINT_MOD)
        out_samples (out_size % UINT_MOD)
      { p with resampler := .speex_int p.resampler }
    | .speex_float s =>
      let p := L.speex_resampler_process_interleaved_float s in_samples (in_size % UINT_MOD)
        out_samples (out_size % UINT_MOD)
      { p with resampler := .speex_float p.resampler }
    | .soxr s =>
      let p := L.soxr_process s in_samples in_size out_samples out_size
      { p with resampler := .soxr p.resampler }

/-! ## The resampler factory (lines 115 to 157) -/

/-- The function `create_resampler`. -/
def create_resampler {σ α : Type} (L : Libs σ α) (type : List Char)
    (in_rate in_channels : Int) (in_format : Nat) (out_rate : Int) :
    Except Exception (Resampler σ) :=
  if substr type 0 6 = "speex-".toList then
    let quality := istream_extract_int (substr_from type 6)
    if in_format = SF_FORMAT_PCM_16 then
      speex_int_resampler_new L in_rate in_channels out_rate quality
    else if in_format = SF_FORMAT_FLOAT then
      speex_float_resampler_new L in_rate in_channels out_rate quality
    else
      .error (.invalid_argument "Unsupported sample format for speex resampler")
  else if substr type 0 5 = "soxr-".toList then
    let recipe : SoxrRecipe :=
      if type = "soxr-lq".toList then .SOXR_LQ
      else if type = "soxr-mq".toList then .SOXR_MQ
      else if type = "soxr-hq".toList then .SOXR_HQ
      else if type = "soxr-vhq".toList then .SOXR_VHQ
      else .SOXR_QQ
    soxr_resampler_new L in_rate in_channels in_format out_rate recipe
  else
    .error (.invalid_argument ("Unrecognized resampler: " ++ String.mk type))

/-! ## The sound files (libsndfile, not part of the repository) -/

/-- A `SndfileHandle` opened for reading. The file holds `frames` frames of
`channels` interleaved samples, `sample i` being the sample at interleaved
index `i`; `pos` is the read cursor, in frames. -/
structure SndfileIn (α : Type) where
  samplerate : Int
  channels : Nat
  format : Nat
  frames : Nat
  sample : Nat → α
  pos : Nat

/-- What `readf` returns: the file with its cursor advanced, the samples it
stored at the destination pointer, and the number of frames delivered. -/
structure ReadResult (α : Type) where
  file : SndfileIn α
  samples : List α
  count : Nat

/-- The call `in_file.readf(ptr, n)` of libsndfile: it delivers the next `n`
frames, or all the frames that are left when fewer than `n` are. -/
def SndfileIn.readf {α : Type} (f : SndfileIn α) (n : Nat) : ReadResult α :=
  let k := min n (f.frames - f.pos)
  { file := { f with pos := f.pos + k }
    samples := (List.range (k * f.channels)).map (fun i => f.sample (f.pos * f.channels + i))
    count := k }

/-- A `SndfileHandle` opened for writing. `room` is the number of frames the
sink still accepts, `written` the samples written so far. -/
structure SndfileOut (α : Type) where
  samplerate : Int
  channels : Nat
  format : Nat
  room : Nat
  written : List α

/-- The call `out_file.writef(ptr, n)` of libsndfile: it writes the first `n`
frames found at `ptr`, or as many as the sink accepts, and returns the number
of frames written. -/
def SndfileOut.writef {α : Type} (f : SndfileOut α) (data : List α) (n : Nat) :
    SndfileOut α × Nat :=
  let k := min n f.room
  ({ f with room := f.room - k, written := f.written ++ data.take (k * f.channels) }, k)

/-! ## Buffers -/

/-- A store of the samples `xs` at sample offset `off` of a buffer (what a
read into `buf + off` does). Within the buffer the length is unchanged; a
store past the end is undefined behaviour in C++ and has no meaning here. -/
def write_at {α : Type} (buf : List α) (off : Nat) (xs : List α) : List α :=
  buf.take off ++ xs ++ buf.drop (off + xs.length)

/-- The call `std::memmove(buf + dst, buf + src, n)` in units of one sample:
the `n` samples found at offset `src` before the call are at offset `dst`
after it, and the rest of the buffer is unchanged. -/
def memmove {α : Type} (buf : List α) (dst src n : Nat) : List α :=
  write_at buf dst ((buf.drop src).take n)

/-- The frame at frame position `i` of an interleaved buffer. -/
def frame_at {α : Type} (buf : List α) (channel_count i : Nat) : List α :=
  (buf.drop (i * channel_count)).take channel_count

/-! ## The streaming loop (lines 159 to 223) -/

/-- What the loop does that can be observed from outside: its calls of
`process` with the counts they returned (`process` in the main loop, `flush`
in the drain loop, whose `consumed` result the source ignores), and the
"Resampler delay" line it prints. The line shows the `float` value of
`total_consumed - (float(out_size) * in_file.samplerate() / out_file.samplerate())`
(line 173) and that value in ms; both are determined by the four operands of
the expression, and the event records these operands. The `float` arithmetic
itself is not modelled. -/
inductive Event where
  | process (consumed produced : Nat)
  | flush (produced : Nat)
  | delay (total_consumed out_size : Nat) (in_rate out_rate : Int)
  deriving DecidableEq, Repr

/-- The produced count of a `process` call; `0` for a delay line. -/
def Event.produced : Event → Nat
  | .process _ p => p
  | .flush p => p
  | .delay _ _ _ _ => 0

/-- The consumed count that a call adds to `total_consumed`; `0` for a drain
call and for a delay line. -/
def Event.consumed : Event → Nat
  | .process c _ => c
  | .flush _ => 0
  | .delay _ _ _ _ => 0

/-- An exception leaving `resampling_loop`, with what the loop had done when
it was thrown. -/
structure Failure where
  exn : Exception
  log : List Event
  deriving DecidableEq, Repr

/-- The variables of `resampling_loop`. -/
structure LoopState (ρ α : Type) where
  in_file : SndfileIn α
  out_file : SndfileOut α
  resampler : ρ
  in_data : List α
  out_data : List α
  in_size : Nat
  total_consumed : Nat
  total_produced : Nat
  log : List Event

section Loop
variable {ρ α : Type}

/-- The local `in_frame_size` (line 184). -/
def in_frame_size (st : LoopState ρ α) : Nat := frame_size st.in_file.samplerate

/-- The local `out_frame_size` (line 185). -/
def out_frame_size (st : LoopState ρ α) : Nat := frame_size st.out_file.samplerate

/-- The local `channel_count` (line 187). -/
def channel_count (st : LoopState ρ α) : Nat := st.in_file.channels

/-- The local `in_count` (line 192). -/
def in_count (st : LoopState ρ α) : Nat := st.in_file.frames

/-- The state at line 192: both buffers allocated (their contents are
indeterminate, `uninit` stands for them), all counters zero. -/
def initial_state (in_file : SndfileIn α) (out_file : SndfileOut α) (resampler : ρ)
    (uninit : α) : LoopState ρ α :=
  { in_file := in_file
    out_file := out_file
    resampler := resampler
    in_data := List.replicate (frame_size in_file.samplerate * in_file.channels) uninit
    out_data := List.replicate (frame_size out_file.samplerate * in_file.channels) uninit
    in_size := 0
    total_consumed := 0
    total_produced := 0
    log := [] }

/-- The function `local::write_data` (lines 168 to 181), called with
`out_data.get()`, `out_size`, `total_consumed` and `total_produced`. -/
def write_data (st : LoopState ρ α) (out_size : Nat) : Except Failure (LoopState ρ α) :=
  let log :=
    if st.total_produced = 0 then
      st.log ++ [Event.delay st.total_consumed out_size st.in_file.samplerate
        st.out_file.samplerate]
    else st.log
  let total_produced := add_sz st.total_produced out_size
  let w := st.out_file.writef st.out_data out_size
  if w.2 ≠ out_size then
    .error ⟨.runtime_error "Failed to write samples to the output file", log⟩
  else
    .ok { st with out_file := w.1, total_produced := total_produced, log := log }

/-- The local `packs_to_read` (line 195). -/
def packs_to_read (st : LoopState ρ α) : Nat :=
  min (sub_sz (in_frame_size st) st.in_size) (sub_sz (in_count st) st.total_consumed)

/-- Fill (lines 195 to 199): the read goes to `in_data.get() + in_size`, an
offset of `in_size` samples. -/
def fill (st : LoopState ρ α) : Except Failure (LoopState ρ α) :=
  let r := st.in_file.readf (packs_to_read st)
  if r.count ≠ packs_to_read st then
    .error ⟨.runtime_error "Failed to read samples from the input file", st.log⟩
  else
    .ok { st with in_file := r.file
                  in_data := write_at st.in_data st.in_size r.samples
                  in_size := add_sz st.in_size r.count }

/-- Convert (lines 201 and 202): the call of `process` on the staged input. -/
def convert (process : Process ρ α) (st : LoopState ρ α) : ProcessResult ρ α :=
  process st.resampler st.in_data st.in_size st.out_data (out_frame_size st)

/-- Compact (lines 204 to 206), after a call of `process` that returned `r`:
the counters are updated and the unconsumed samples are moved to the front;
the state also takes over the engine and the output buffer as the call left
them, and the call is logged. -/
def compact (st : LoopState ρ α) (r : ProcessResult ρ α) : LoopState ρ α :=
  let in_size := sub_sz st.in_size r.in_consumed
  { st with resampler := r.resampler
            out_data := r.out_samples
            total_consumed := add_sz st.total_consumed r.in_consumed
            in_size := in_size
            in_data := memmove st.in_data 0 (r.in_consumed * channel_count st)
              (in_size * channel_count st)
            log := st.log ++ [Event.process r.in_consumed r.out_produced] }

/-- Emit (lines 208 and 209). -/
def emit (st : LoopState ρ α) (produced : Nat) : Except Failure (LoopState ρ α) :=
  if 0 < produced then write_data st produced else .ok st

/-- One iteration of the main loop (lines 195 to 209). -/
def loop_body (process : Process ρ α) (st : LoopState ρ α) : Except Failure (LoopState ρ α) :=
  match fill st with
  | .error e => .error e
  | .ok st1 =>
    let r := convert process st1
    emit (compact st1 r) r.out_produced

/-- The main loop (lines 193 to 210); `none` when the fuel runs out. -/
def main_loop (process : Process ρ α) : Nat → LoopState ρ α →
    Option (Except Failure (LoopState ρ α))
  | 0, _ => none
  | fuel + 1, st =>
    if st.total_consumed < in_count st then
      match loop_body process st with
      | .error e => some (.error e)
      | .ok st1 => main_loop process fuel st1
    else some (.ok st)

/-- The state after one call `process(NULL, 0, ...)` of the drain loop
(lines 215 and 216). -/
def flush_call (process : Process ρ α) (st : LoopState ρ α) : LoopState ρ α × Nat :=
  let r := process st.resampler [] 0 st.out_data (out_frame_size st)
  ({ st with resampler := r.resampler
             out_data := r.out_samples
             log := st.log ++ [Event.flush r.out_produced] }, r.out_produced)

/-- The drain loop (lines 213 to 222); `none` when the fuel runs out. -/
def drain_loop (process : Process ρ α) : Nat → LoopState ρ α →
    Option (Except Failure (LoopState ρ α))
  | 0, _ => none
  | fuel + 1, st =>
    let c := flush_call process st
    if 0 < c.2 then
      match write_data c.1 c.2 with
      | .error e => some (.error e)
      | .ok st1 => drain_loop process fuel st1
    else some (.ok c.1)

/-- The function `resampling_loop`: the main loop, then the drain loop. -/
def resampling_loop (process : Process ρ α) (fuel : Nat) (in_file : SndfileIn α)
    (out_file : SndfileOut α) (resampler : ρ) (uninit : α) :
    Option (Except Failure (LoopState ρ α)) :=
  match main_loop process fuel (initial_state in_file out_file resampler uninit) with
  | none => none
  | some (.error e) => some (.error e)
  | some (.ok st) => drain_loop process fuel st

/-- The states at the head of the main loop (line 193) that a run started in
`st0` passes through. -/
inductive Reach (process : Process ρ α) (st0 : LoopState ρ α) : LoopState ρ α → Prop where
  | init : Reach process st0 st0
  | step {st st1 : LoopState ρ α} : Reach process st0 st →
      st.total_consumed < in_count st → loop_body process st = .ok st1 →
      Reach process st0 st1

/-- An engine whose `process` consumes at most the frames it is given. -/
def ConsumesAtMostGiven (process : Process ρ α) : Prop :=
  ∀ r in_samples in_size out_samples out_size,
    (process r in_samples in_size out_samples out_size).in_consumed ≤ in_size

end Loop

/-! ## The program (lines 225 to 279) -/

/-- What `main` does to the world outside the process before it ends: the
files it tries to open, and the engine it gets from `create_resampler`. -/
inductive Effect where
  | open_input (path : List Char)
  | open_output (path : List Char)
  | engine_created
  deriving DecidableEq, Repr

/-- The world `main` runs in: the file system as libsndfile shows it (`none`
for a handle that failed to open), the engine libraries, and the contents of
freshly allocated memory. -/
structure World (σ α : Type) where
  open_input : List Char → Option (SndfileIn α)
  open_output : List Char → (format channels : Nat) → (samplerate : Int) →
    Option (SndfileOut α)
  libs : Libs σ α
  uninit : α

/-- How a run of `main` ends: its exit code, the exception the handler of
line 272 caught (if any), and what the run had done by then. -/
structure Outcome where
  exit_code : Int
  failure : Option Exception
  effects : List Effect
  deriving DecidableEq, Repr

/-- The `try` block of `main` (lines 229 to 270); `argv` holds the program
name and the arguments, so `argc` is its length. -/
def main_try {σ α : Type} (W : World σ α) (fuel : Nat) (argv : List (List Char)) :
    Option (List Effect × Except Exception Unit) :=
  if argv.length < 5 then
    some ([], .error (.invalid_argument
      "Usage: src_test <input> <resampler> <output rate> <output>"))
  else
    let in_filename := argv.getD 1 []
    let out_filename := argv.getD 4 []
    let out_rate := istream_extract_int (argv.getD 3 [])
    if out_rate ≤ 0 then
      some ([], .error (.invalid_argument "Invalid sample rate"))
    else
      match W.open_input in_filename with
      | none =>
        some ([.open_input in_filename],
          .error (.runtime_error ("Failed to open input file " ++ String.mk in_filename)))
      | some in_file =>
        if in_file.channels ≠ 1 ∧ in_file.channels ≠ 2 then
          some ([.open_input in_filename],
            .error (.invalid_argument "Unsupported input channel count"))
        else
          let sample_format := in_file.format &&& SF_FORMAT_SUBMASK
          match W.open_output out_filename (sample_format ||| SF_FORMAT_WAV)
              in_file.channels out_rate with
          | none =>
            some ([.open_input in_filename, .open_output out_filename],
              .error (.runtime_error
                ("Failed to open output file " ++ String.mk out_filename)))
          | some out_file =>
            match create_resampler W.libs (argv.getD 2 []) in_file.samplerate
                in_file.channels sample_format out_rate with
            | .error e =>
              some ([.open_input in_filename, .open_output out_filename], .error e)
            | .ok resampler =>
              let effects : List Effect :=
                [.open_input in_filename, .open_output out_filename, .engine_created]
              if sample_format = SF_FORMAT_PCM_16 then
                match resampling_loop (Resampler.process W.libs) fuel in_file out_file
                    resampler W.uninit with
                | none => none
                | some (.error e) => some (effects, .error e.exn)
                | some (.ok _) => some (effects, .ok ())
              else if sample_format = SF_FORMAT_FLOAT then
                match resampling_loop (Resampler.process W.libs) fuel in_file out_file
                    resampler W.uninit with
                | none => none
                | some (.error e) => some (effects, .error e.exn)
                | some (.ok _) => some (effects, .ok ())
              else some (effects, .error (.invalid_argument "Unsupported sample format"))

/-- The function `main`: exit code 1 when the `try` block threw, 0 otherwise;
`none` when the run does not end within the fuel. -/
def main {σ α : Type} (W : World σ α) (fuel : Nat) (argv : List (List Char)) :
    Option Outcome :=
  match main_try W fuel argv with
  | none => none
  | some (effects, .error e) => some { exit_code := 1, failure := some e, effects := effects }
  | some (effects, .ok _) => some { exit_code := 0, failure := none, effects := effects }

/-! ## Reference notions of the specification -/

/-- A string that denotes a positive integer, in the words of the
specification of the `output-sample-rate` argument: a non-empty run of decimal
digits whose value is positive. -/
def denotes_positive_integer (s : List Char) : Bool :=
  !s.isEmpty && s.all Char.isDigit && decide (0 < digits_value s)

/-- The rate check of `main` (lines 236 to 239) passes for the argument. -/
def rate_check_passes (s : List Char) : Bool := decide (0 < istream_extract_int s)

/-! ## Test doubles -/

/-- An engine that consumes at most `limit` frames a call and hands them on
unchanged (mono): it never consumes more than it is given, and produces
nothing when it is given nothing. -/
def throttled_process (limit : Nat) : Process Unit Nat :=
  fun _ in_samples in_size out_samples out_size =>
    let consumed := min in_size limit
    let produced := min consumed out_size
    { resampler := ()
      in_consumed := consumed
      out_produced := produced
      out_samples := in_samples.take produced ++ out_samples.drop produced }

/-- A mono input file of the given rate and length whose sample `i` is `i`. -/
def ramp_file (samplerate : Int) (frames : Nat) : SndfileIn Nat :=
  { samplerate := samplerate, channels := 1, format := SF_FORMAT_WAV ||| SF_FORMAT_PCM_16
    frames := frames, sample := fun i => i, pos := 0 }

/-- An empty mono output file of the given rate with room for a million frames. -/
def fresh_sink (samplerate : Int) : SndfileOut Nat :=
  { samplerate := samplerate, channels := 1, format := SF_FORMAT_WAV ||| SF_FORMAT_PCM_16
    room := 1000000, written := [] }

/-- Engine libraries whose handles record the arguments they were created
with, and whose `process` does nothing. -/
def recording_libs : Libs (List Int) Nat :=
  let idle : Process (List Int) Nat := fun s _ _ out_samples _ =>
    { resampler := s, in_consumed := 0, out_produced := 0, out_samples := out_samples }
  { speex_resampler_init := fun nb_channels in_rate out_rate quality =>
      some [nb_channels, in_rate, out_rate, quality]
    speex_resampler_skip_zeros := fun s => s
    speex_resampler_process_interleaved_int := idle
    speex_resampler_process_interleaved_float := idle
    soxr_create := fun in_rate out_rate num_channels _ _ =>
      some [in_rate, out_rate, num_channels]
    soxr_process := idle }

/-- A call that creates an engine, with its arguments. -/
inductive EngineCall where
  | speex_resampler_init (nb_channels in_rate out_rate quality : Int)
  | soxr_create (in_rate out_rate num_channels : Int) (datatype : SoxrDatatype)
      (recipe : SoxrRecipe)
  deriving DecidableEq, Repr

/-- Engine libraries whose handle is the call that created it, and whose
`process` does nothing. -/
def tracing_libs : Libs EngineCall Nat :=
  let idle : Process EngineCall Nat := fun s _ _ out_samples _ =>
    { resampler := s, in_consumed := 0, out_produced := 0, out_samples := out_samples }
  { speex_resampler_init := fun nb_channels in_rate out_rate quality =>
      some (.speex_resampler_init nb_channels in_rate out_rate quality)
    speex_resampler_skip_zeros := fun s => s
    speex_resampler_process_interleaved_int := idle
    speex_resampler_process_interleaved_float := idle
    soxr_create := fun in_rate out_rate num_channels datatype recipe =>
      some (.soxr_create in_rate out_rate num_channels datatype recipe)
    soxr_process := idle }

/-- A world with one input file, `in.wav`: mono, 8000 Hz, 32-bit integer PCM in
a WAV container, 100 frames; every output file can be created. -/
def pcm32_world : World (List Int) Nat :=
  { open_input := fun path =>
      if path = "in.wav".toList then
        some { samplerate := 8000, channels := 1, format := SF_FORMAT_WAV ||| SF_FORMAT_PCM_32
               frames := 100, sample := fun i => i, pos := 0 }
      else none
    open_output := fun _ format channels samplerate =>
      some { samplerate := samplerate, channels := channels, format := format
             room := 1000000, written := [] }
    libs := recording_libs
    uninit := 0 }

/-! ## Invariants of the streaming loop -/

section Invariants
variable {ρ α : Type}

/-- The staged count is within the capacity of the input buffer, and the
buffer has the size it was allocated with. -/
def BufInv (st : LoopState ρ α) : Prop :=
  st.in_size ≤ in_frame_size st ∧
  st.in_data.length = in_frame_size st * channel_count st

/-- The frames consumed, the frames staged and the frames still unread are
together at most the frames of the file. -/
def CountInv (st : LoopState ρ α) : Prop :=
  st.total_consumed + st.in_size + (st.in_file.frames - st.in_file.pos) ≤ st.in_file.frames

end Invariants

/-! ## Chunk sizes -/

theorem frame_size_of_small (r : Int) (h0 : 0 ≤ r) (h1 : r ≤ 214748314) :
    frame_size r = (r.toNat * 20 + 999) / 1000 := by
  unfold frame_size to_unsigned frame_duration UINT_MOD
  have h2 : (r % ((4294967296 : Nat) : Int)).toNat = r.toNat := by
    congr 1
    apply Int.emod_eq_of_lt h0
    omega
  rw [h2]
  have h3 : r.toNat ≤ 214748314 := by omega
  have h4 : r.toNat * 20 % 4294967296 = r.toNat * 20 := Nat.mod_eq_of_lt (by omega)
  have h5 : (r.toNat * 20 + 999) % 4294967296 = r.toNat * 20 + 999 :=
    Nat.mod_eq_of_lt (by omega)
  rw [h4, h5]

theorem frame_size_of_large (r : Int) (h0 : 214748314 < r) (h1 : r ≤ INT_MAX) :
    frame_size r < (r.toNat * 20 + 999) / 1000 := by
  unfold INT_MAX at h1
  unfold frame_size to_unsigned frame_duration UINT_MOD
  have h2 : (r % ((4294967296 : Nat) : Int)).toNat = r.toNat := by
    congr 1
    apply Int.emod_eq_of_lt (by omega)
    omega
  rw [h2]
  have h3 : 214748314 < r.toNat := by omega
  omega

theorem ceil_of_div (n : Nat) :
    ⌈((20 : ℚ) * (n : ℚ)) / 1000⌉ = (((n * 20 + 999) / 1000 : Nat) : Int) := by
  rw [Int.ceil_eq_iff]
  have h1 := Nat.div_mul_le_self (n * 20 + 999) 1000
  have h2 := Nat.lt_div_mul_add (a := n * 20 + 999) (b := 1000) (by norm_num)
  set q := (n * 20 + 999) / 1000 with hq
  have h1q : ((q : ℚ)) * 1000 ≤ (n : ℚ) * 20 + 999 := by exact_mod_cast h1
  have h2n : n * 20 ≤ q * 1000 := by omega
  have h2q2 : (n : ℚ) * 20 ≤ (q : ℚ) * 1000 := by exact_mod_cast h2n
  constructor
  · push_cast
    rw [lt_div_iff₀ (by norm_num)]
    linarith
  · push_cast
    rw [div_le_iff₀ (by norm_num)]
    linarith

theorem ceil_of_rate (r : Int) (h0 : 0 ≤ r) :
    ⌈((20 : ℚ) * (r : ℚ)) / 1000⌉ = (((r.toNat * 20 + 999) / 1000 : Nat) : Int) := by
  rw [← ceil_of_div]
  have h : (r : ℚ) = ((r.toNat : Nat) : ℚ) := by
    have h1 : ((r.toNat : Int) : ℚ) = (r : ℚ) := by rw [Int.toNat_of_nonneg h0]
    rw [← h1, Int.cast_natCast]
  rw [h]

/-- C8, as amended: for every positive sample rate `r` representable as an
`int`, the chunk size `(r * 20 + 999) / 1000` computed in 32-bit unsigned
arithmetic equals `ceil(20 * r / 1000)` exactly when `r * 20 + 999` does not
overflow 32 bits, that is when `r ≤ 214748314`; this holds for the input chunk
size and the output chunk size of the loop independently, each being the
chunk size of its own stream's rate. -/
theorem chunk_size_is_ceil_iff (r : Int) (h0 : 0 < r) (h1 : r ≤ INT_MAX) :
    ((frame_size r : Int) = ⌈((20 : ℚ) * (r : ℚ)) / 1000⌉ ↔ r ≤ 214748314) ∧
    ∀ (ρ α : Type) (st : LoopState ρ α),
      (st.in_file.samplerate = r → in_frame_size st = frame_size r) ∧
      (st.out_file.samplerate = r → out_frame_size st = frame_size r) := by
  refine ⟨?_, ?_⟩
  · rw [ceil_of_rate r (le_of_lt h0)]
    constructor
    · intro h
      by_contra hlt
      have := frame_size_of_large r (by omega) h1
      omega
    · intro h
      rw [frame_size_of_small r (le_of_lt h0) h]
  · intro ρ α st
    exact ⟨fun h => by rw [in_frame_size, h], fun h => by rw [out_frame_size, h]⟩

/-- Witness of `chunk_size_is_ceil_iff` at 44100 Hz. -/
theorem chunk_size_is_ceil_iff_witness :
    (0 : Int) < 44100 ∧ (44100 : Int) ≤ INT_MAX ∧ frame_size 44100 = 882 ∧
    ((frame_size 44100 : Int) = ⌈((20 : ℚ) * ((44100 : Int) : ℚ)) / 1000⌉ ↔
      (44100 : Int) ≤ 214748314) :=
  ⟨by decide, by decide, by decide, (chunk_size_is_ceil_iff 44100 (by decide) (by decide)).1⟩

/-- C8, as stated, fails: the rate 214748315 is a positive `int`, its chunk
size is computed as 0, and `ceil(20 * 214748315 / 1000)` is 4294967. -/
theorem chunk_size_overflow_counterexample :
    (0 : Int) < 214748315 ∧ (214748315 : Int) ≤ INT_MAX ∧
    frame_size 214748315 = 0 ∧
    ⌈((20 : ℚ) * ((214748315 : Int) : ℚ)) / 1000⌉ = 4294967 ∧
    (frame_size 214748315 : Int) ≠ ⌈((20 : ℚ) * ((214748315 : Int) : ℚ)) / 1000⌉ := by
  have h : ⌈((20 : ℚ) * ((214748315 : Int) : ℚ)) / 1000⌉ = 4294967 := by
    rw [Int.ceil_eq_iff]; norm_num
  refine ⟨by decide, by decide, by decide, h, ?_⟩
  rw [h]
  decide

/-! ## The factory -/

theorem substr_of_starts (p t : List Char) :
    substr (p ++ t) 0 p.length = p := by
  simp [substr]

theorem starts_of_substr (p s : List Char) (h : substr s 0 p.length = p) : p <+: s := by
  rw [List.prefix_iff_eq_take]
  simpa [substr] using h.symm

theorem soxr_not_speex (t : List Char) :
    substr ("soxr-".toList ++ t) 0 6 ≠ "speex-".toList := by
  intro h
  have h2 := congrArg (fun l => l.take 2) h
  simp [substr, String.toList] at h2

theorem create_resampler_soxr {σ α : Type} (L : Libs σ α) (t : List Char)
    (in_rate in_channels : Int) (in_format : Nat) (out_rate : Int) :
    create_resampler L ("soxr-".toList ++ t) in_rate in_channels in_format out_rate =
      soxr_resampler_new L in_rate in_channels in_format out_rate
        (if "soxr-".toList ++ t = "soxr-lq".toList then .SOXR_LQ
         else if "soxr-".toList ++ t = "soxr-mq".toList then .SOXR_MQ
         else if "soxr-".toList ++ t = "soxr-hq".toList then .SOXR_HQ
         else if "soxr-".toList ++ t = "soxr-vhq".toList then .SOXR_VHQ
         else .SOXR_QQ) := by
  unfold create_resampler
  have h5 : substr ("soxr-".toList ++ t) 0 5 = "soxr-".toList :=
    substr_of_starts "soxr-".toList t
  rw [if_neg (soxr_not_speex t), if_pos h5]

theorem unrecognized_ne_unsupported (type : List Char) :
    "Unrecognized resampler: " ++ String.mk type ≠ "Unsupported sample format for soxr" := by
  intro h
  have h2 := congrArg (fun s => s.data.take 3) h
  simp [String.data_append] at h2

theorem create_resampler_soxr_call {σ α : Type} (L : Libs σ α) (t : List Char)
    (in_rate in_channels : Int) (in_format : Nat) (out_rate : Int) (recipe : SoxrRecipe)
    (hrecipe :
      ("soxr-".toList ++ t = "soxr-lq".toList ∧ recipe = .SOXR_LQ) ∨
      ("soxr-".toList ++ t = "soxr-mq".toList ∧ recipe = .SOXR_MQ) ∨
      ("soxr-".toList ++ t = "soxr-hq".toList ∧ recipe = .SOXR_HQ) ∨
      ("soxr-".toList ++ t = "soxr-vhq".toList ∧ recipe = .SOXR_VHQ) ∨
      ("soxr-".toList ++ t ≠ "soxr-lq".toList ∧ "soxr-".toList ++ t ≠ "soxr-mq".toList ∧
        "soxr-".toList ++ t ≠ "soxr-hq".toList ∧ "soxr-".toList ++ t ≠ "soxr-vhq".toList ∧
        recipe = .SOXR_QQ)) :
    create_resampler L ("soxr-".toList ++ t) in_rate in_channels in_format out_rate =
      match soxr_io_spec_of in_format with
      | .error e => .error e
      | .ok io_spec =>
        match L.soxr_create in_rate out_rate in_channels io_spec recipe with
        | none => .error (.runtime_error "Failed to create soxr context")
        | some m_state => .ok (.soxr m_state) := by
  rw [create_resampler_soxr]
  unfold soxr_resampler_new
  rcases hrecipe with ⟨h1, h2⟩ | ⟨h1, h2⟩ | ⟨h1, h2⟩ | ⟨h1, h2⟩ | ⟨h1, h2, h3, h4, h5⟩
  · rw [if_pos h1, h2]
  · rw [h1, h2]
    rfl
  · rw [h1, h2]
    rfl
  · rw [h1, h2]
    rfl
  · rw [if_neg h1, if_neg h2, if_neg h3, if_neg h4, h5]

theorem soxr_io_spec_of_supported (in_format : Nat) (io_spec : SoxrDatatype)
    (h : (in_format = SF_FORMAT_PCM_16 ∧ io_spec = .SOXR_INT16_I) ∨
      (in_format = SF_FORMAT_PCM_32 ∧ io_spec = .SOXR_INT32_I) ∨
      (in_format = SF_FORMAT_FLOAT ∧ io_spec = .SOXR_FLOAT32_I)) :
    soxr_io_spec_of in_format = .ok io_spec := by
  rcases h with ⟨h1, h2⟩ | ⟨h1, h2⟩ | ⟨h1, h2⟩ <;> rw [h1, h2] <;> rfl

theorem soxr_io_spec_of_unsupported (in_format : Nat) (h16 : in_format ≠ SF_FORMAT_PCM_16)
    (h32 : in_format ≠ SF_FORMAT_PCM_32) (hf : in_format ≠ SF_FORMAT_FLOAT) :
    soxr_io_spec_of in_format =
      .error (.invalid_argument "Unsupported sample format for soxr") := by
  unfold soxr_io_spec_of
  rw [if_neg h16, if_neg h32, if_neg hf]

/-- C4: for every selector that starts with "soxr-", `create_resampler` never
rejects the selector itself. The recipe it passes to `soxr_create` is LQ, MQ,
HQ, VHQ for exactly the strings "soxr-lq", "soxr-mq", "soxr-hq", "soxr-vhq",
and the default QQ for every other such string: with that recipe and the
datatype of the sample format, a handle from `soxr_create` is the engine
returned, and a null handle is the `runtime_error` of the constructor. An
unsupported sample format is the ConfigError of the constructor. In no case is
the error the "Unrecognized resampler" one. -/
theorem create_resampler_soxr_recipe {σ α : Type} (L : Libs σ α) (type : List Char)
    (in_rate in_channels : Int) (in_format : Nat) (out_rate : Int)
    (h : "soxr-".toList <+: type) (recipe : SoxrRecipe)
    (hrecipe :
      (type = "soxr-lq".toList ∧ recipe = .SOXR_LQ) ∨
      (type = "soxr-mq".toList ∧ recipe = .SOXR_MQ) ∨
      (type = "soxr-hq".toList ∧ recipe = .SOXR_HQ) ∨
      (type = "soxr-vhq".toList ∧ recipe = .SOXR_VHQ) ∨
      (type ≠ "soxr-lq".toList ∧ type ≠ "soxr-mq".toList ∧ type ≠ "soxr-hq".toList ∧
        type ≠ "soxr-vhq".toList ∧ recipe = .SOXR_QQ)) :
    (∀ io_spec,
      (in_format = SF_FORMAT_PCM_16 ∧ io_spec = .SOXR_INT16_I) ∨
        (in_format = SF_FORMAT_PCM_32 ∧ io_spec = .SOXR_INT32_I) ∨
        (in_format = SF_FORMAT_FLOAT ∧ io_spec = .SOXR_FLOAT32_I) →
      (∀ m_state, L.soxr_create in_rate out_rate in_channels io_spec recipe = some m_state →
        create_resampler L type in_rate in_channels in_format out_rate =
          .ok (.soxr m_state)) ∧
      (L.soxr_create in_rate out_rate in_channels io_spec recipe = none →
        create_resampler L type in_rate in_channels in_format out_rate =
          .error (.runtime_error "Failed to create soxr context"))) ∧
    (in_format ≠ SF_FORMAT_PCM_16 → in_format ≠ SF_FORMAT_PCM_32 →
      in_format ≠ SF_FORMAT_FLOAT →
      create_resampler L type in_rate in_channels in_format out_rate =
        .error (.invalid_argument "Unsupported sample format for soxr")) ∧
    create_resampler L type in_rate in_channels in_format out_rate ≠
      .error (.invalid_argument ("Unrecognized resampler: " ++ String.mk type)) := by
  obtain ⟨t, rfl⟩ := h
  have hc := create_resampler_soxr_call L t in_rate in_channels in_format out_rate recipe
    hrecipe
  have h1 : ∀ io_spec,
      (in_format = SF_FORMAT_PCM_16 ∧ io_spec = .SOXR_INT16_I) ∨
        (in_format = SF_FORMAT_PCM_32 ∧ io_spec = .SOXR_INT32_I) ∨
        (in_format = SF_FORMAT_FLOAT ∧ io_spec = .SOXR_FLOAT32_I) →
      (∀ m_state, L.soxr_create in_rate out_rate in_channels io_spec recipe = some m_state →
        create_resampler L ("soxr-".toList ++ t) in_rate in_channels in_format out_rate =
          .ok (.soxr m_state)) ∧
      (L.soxr_create in_rate out_rate in_channels io_spec recipe = none →
        create_resampler L ("soxr-".toList ++ t) in_rate in_channels in_format out_rate =
          .error (.runtime_error "Failed to create soxr context")) := by
    intro io_spec hspec
    rw [hc, soxr_io_spec_of_supported in_format io_spec hspec]
    dsimp only
    constructor
    · intro m hm
      rw [hm]
    · intro hm
      rw [hm]
  have h2 : in_format ≠ SF_FORMAT_PCM_16 → in_format ≠ SF_FORMAT_PCM_32 →
      in_format ≠ SF_FORMAT_FLOAT →
      create_resampler L ("soxr-".toList ++ t) in_rate in_channels in_format out_rate =
        .error (.invalid_argument "Unsupported sample format for soxr") := by
    intro h16 h32 hf
    rw [hc, soxr_io_spec_of_unsupported in_format h16 h32 hf]
  refine ⟨h1, h2, ?_⟩
  intro hbad
  by_cases h16 : in_format = SF_FORMAT_PCM_16
  · obtain ⟨a, b⟩ := h1 .SOXR_INT16_I (Or.inl ⟨h16, rfl⟩)
    cases hm : L.soxr_create in_rate out_rate in_channels .SOXR_INT16_I recipe with
    | none =>
      rw [b hm] at hbad
      cases hbad
    | some m =>
      rw [a m hm] at hbad
      cases hbad
  · by_cases h32 : in_format = SF_FORMAT_PCM_32
    · obtain ⟨a, b⟩ := h1 .SOXR_INT32_I (Or.inr (Or.inl ⟨h32, rfl⟩))
      cases hm : L.soxr_create in_rate out_rate in_channels .SOXR_INT32_I recipe with
      | none =>
        rw [b hm] at hbad
        cases hbad
      | some m =>
        rw [a m hm] at hbad
        cases hbad
    · by_cases hf : in_format = SF_FORMAT_FLOAT
      · obtain ⟨a, b⟩ := h1 .SOXR_FLOAT32_I (Or.inr (Or.inr ⟨hf, rfl⟩))
        cases hm : L.soxr_create in_rate out_rate in_channels .SOXR_FLOAT32_I recipe with
        | none =>
          rw [b hm] at hbad
          cases hbad
        | some m =>
          rw [a m hm] at hbad
          cases hbad
      · rw [h2 h16 h32 hf] at hbad
        injection hbad with hbad
        injection hbad with hbad
        exact unrecognized_ne_unsupported _ hbad.symm

/-- Witness of `create_resampler_soxr_recipe` at the selectors "soxr-unknown"
and "soxr-vhq", with libraries whose handle records the call that made it. -/
theorem create_resampler_soxr_recipe_witness :
    "soxr-".toList <+: "soxr-unknown".toList ∧
    create_resampler tracing_libs "soxr-unknown".toList 8000 1 SF_FORMAT_PCM_16 16000 =
      .ok (.soxr (.soxr_create 8000 16000 1 .SOXR_INT16_I .SOXR_QQ)) ∧
    create_resampler tracing_libs "soxr-vhq".toList 44100 2 SF_FORMAT_FLOAT 48000 =
      .ok (.soxr (.soxr_create 44100 48000 2 .SOXR_FLOAT32_I .SOXR_VHQ)) :=
  ⟨by decide,
   ((create_resampler_soxr_recipe tracing_libs "soxr-unknown".toList 8000 1
      SF_FORMAT_PCM_16 16000 (by decide) .SOXR_QQ
      (Or.inr (Or.inr (Or.inr (Or.inr ⟨by decide, by decide, by decide, by decide, rfl⟩))))).1
      .SOXR_INT16_I (Or.inl ⟨rfl, rfl⟩)).1 _ rfl,
   ((create_resampler_soxr_recipe tracing_libs "soxr-vhq".toList 44100 2
      SF_FORMAT_FLOAT 48000 (by decide) .SOXR_VHQ
      (Or.inr (Or.inr (Or.inr (Or.inl ⟨rfl, rfl⟩))))).1
      .SOXR_FLOAT32_I (Or.inr (Or.inr ⟨rfl, rfl⟩))).1 _ rfl⟩

/-! ## Stream extraction -/

theorem isDigit_bounds (c : Char) (h : c.isDigit = true) : 48 ≤ c.toNat ∧ c.toNat ≤ 57 := by
  unfold Char.isDigit at h
  simp only [Bool.and_eq_true, decide_eq_true_eq] at h
  have h1 : (48 : UInt32).toNat ≤ c.val.toNat := by
    have := h.1
    rw [ge_iff_le, UInt32.le_def, BitVec.le_def] at this
    exact this
  have h2 : c.val.toNat ≤ (57 : UInt32).toNat := by
    have := h.2
    rw [UInt32.le_def, BitVec.le_def] at this
    exact this
  exact ⟨h1, h2⟩

theorem isspace_of_isDigit (c : Char) (h : c.isDigit = true) : isspace c = false := by
  have hb := isDigit_bounds c h
  unfold isspace
  simp only [Bool.or_eq_false_iff, decide_eq_false_iff_not, Bool.and_eq_false_iff]
  omega

theorem split_sign_of_isDigit (c : Char) (t : List Char) (h : c.isDigit = true) :
    split_sign (c :: t) = (false, c :: t) := by
  have hb := isDigit_bounds c h
  unfold split_sign
  have h1 : c ≠ '-' := by
    intro he
    rw [he] at hb
    revert hb
    decide
  have h2 : c ≠ '+' := by
    intro he
    rw [he] at hb
    revert hb
    decide
  simp only [if_neg h1, if_neg h2]

theorem clamp_int_pos (v : Int) (h : 0 < v) : 0 < clamp_int v := by
  unfold clamp_int INT_MIN INT_MAX
  split_ifs <;> omega

/-- On a non-empty run of decimal digits, extraction reads the whole string:
its value, or `INT_MAX` when the value does not fit. -/
theorem istream_extract_int_of_digits (s : List Char) (hne : s ≠ [])
    (hd : s.all Char.isDigit = true) :
    istream_extract_int s = clamp_int (digits_value s) := by
  cases s with
  | nil => exact absurd rfl hne
  | cons c t =>
    have hc : c.isDigit = true := by
      simp only [List.all_cons, Bool.and_eq_true] at hd
      exact hd.1
    have hdrop : (c :: t).dropWhile isspace = c :: t := by
      rw [List.dropWhile_cons, isspace_of_isDigit c hc]
      rfl
    have htake : (c :: t).takeWhile Char.isDigit = c :: t := by
      rw [List.takeWhile_eq_self_iff]
      intro x hx
      exact List.all_eq_true.mp hd x hx
    unfold istream_extract_int
    simp only [hdrop, split_sign_of_isDigit c t hc, htake]
    simp

theorem istream_extract_int_pos_of_denotes (s : List Char)
    (h : denotes_positive_integer s = true) : 0 < istream_extract_int s := by
  unfold denotes_positive_integer at h
  simp only [Bool.and_eq_true, Bool.not_eq_true', decide_eq_true_eq] at h
  obtain ⟨⟨h1, h2⟩, h3⟩ := h
  have hne : s ≠ [] := by
    intro he
    rw [he] at h1
    simp at h1
  rw [istream_extract_int_of_digits s hne h2]
  exact clamp_int_pos _ (by exact_mod_cast h3)

theorem create_resampler_speex {σ α : Type} (L : Libs σ α) (t : List Char)
    (in_rate in_channels : Int) (in_format : Nat) (out_rate : Int) :
    create_resampler L ("speex-".toList ++ t) in_rate in_channels in_format out_rate =
      if in_format = SF_FORMAT_PCM_16 then
        speex_int_resampler_new L in_rate in_channels out_rate (istream_extract_int t)
      else if in_format = SF_FORMAT_FLOAT then
        speex_float_resampler_new L in_rate in_channels out_rate (istream_extract_int t)
      else .error (.invalid_argument "Unsupported sample format for speex resampler") := by
  unfold create_resampler
  have h6 : substr ("speex-".toList ++ t) 0 6 = "speex-".toList :=
    substr_of_starts "speex-".toList t
  have ht : substr_from ("speex-".toList ++ t) 6 = t := by
    simp [substr_from, String.toList]
  rw [if_pos h6, ht]

theorem create_resampler_unrecognized {σ α : Type} (L : Libs σ α) (type : List Char)
    (in_rate in_channels : Int) (in_format : Nat) (out_rate : Int)
    (h1 : ¬ "speex-".toList <+: type) (h2 : ¬ "soxr-".toList <+: type) :
    create_resampler L type in_rate in_channels in_format out_rate =
      .error (.invalid_argument ("Unrecognized resampler: " ++ String.mk type)) := by
  unfold create_resampler
  have h6 : ¬ substr type 0 6 = "speex-".toList :=
    fun h => h1 (starts_of_substr "speex-".toList type h)
  have h5 : ¬ substr type 0 5 = "soxr-".toList :=
    fun h => h2 (starts_of_substr "soxr-".toList type h)
  rw [if_neg h6, if_neg h5]

/-- C5, as amended: for every selector that does not start with "soxr-": if
it starts with "speex-", `create_resampler` reads the remainder as a signed
`int` quality by stream extraction (0 when it has no leading numeral, a
negative value after a leading minus sign) and passes it to the constructor of
the integer-format speex adapter when the sample format is 16-bit PCM, of the
float-format adapter when it is 32-bit float (either constructor builds the
engine unless `speex_resampler_init` returns a null handle, which is a
`runtime_error`), and raises a ConfigError (`invalid_argument`) for every other
sample format; if it starts with neither "speex-" nor "soxr-", it raises the
ConfigError "Unrecognized resampler" whatever the sample format and
constructs no engine. -/
theorem create_resampler_speex_or_unrecognized {σ α : Type} (L : Libs σ α)
    (type : List Char) (in_rate in_channels : Int) (in_format : Nat) (out_rate : Int)
    (hsoxr : ¬ "soxr-".toList <+: type) :
    ("speex-".toList <+: type →
      (in_format = SF_FORMAT_PCM_16 →
        create_resampler L type in_rate in_channels in_format out_rate =
          speex_int_resampler_new L in_rate in_channels out_rate
            (istream_extract_int (type.drop 6))) ∧
      (in_format = SF_FORMAT_FLOAT →
        create_resampler L type in_rate in_channels in_format out_rate =
          speex_float_resampler_new L in_rate in_channels out_rate
            (istream_extract_int (type.drop 6))) ∧
      (in_format ≠ SF_FORMAT_PCM_16 → in_format ≠ SF_FORMAT_FLOAT →
        create_resampler L type in_rate in_channels in_format out_rate =
          .error (.invalid_argument "Unsupported sample format for speex resampler"))) ∧
    (¬ "speex-".toList <+: type →
      create_resampler L type in_rate in_channels in_format out_rate =
        .error (.invalid_argument ("Unrecognized resampler: " ++ String.mk type))) ∧
    (∀ quality,
      speex_int_resampler_new L in_rate in_channels out_rate quality =
        match L.speex_resampler_init in_channels in_rate out_rate quality with
        | none => .error (.runtime_error "Failed to create speex resampler context")
        | some m_state => .ok (.speex_int (L.speex_resampler_skip_zeros m_state))) ∧
    (∀ quality,
      speex_float_resampler_new L in_rate in_channels out_rate quality =
        match L.speex_resampler_init in_channels in_rate out_rate quality with
        | none => .error (.runtime_error "Failed to create speex resampler context")
        | some m_state => .ok (.speex_float (L.speex_resampler_skip_zeros m_state))) := by
  refine ⟨?_, ?_, ?_, ?_⟩
  · rintro ⟨t, rfl⟩
    have hc := create_resampler_speex L t in_rate in_channels in_format out_rate
    have ht : ("speex-".toList ++ t).drop 6 = t := by simp [String.toList]
    rw [ht]
    refine ⟨?_, ?_, ?_⟩
    · intro h
      rw [hc, if_pos h]
    · intro h
      have h16 : ¬ in_format = SF_FORMAT_PCM_16 := by
        rw [h]
        decide
      rw [hc, if_neg h16, if_pos h]
    · intro h16 hf
      rw [hc, if_neg h16, if_neg hf]
  · intro hspeex
    exact create_resampler_unrecognized L type _ _ _ _ hspeex hsoxr
  · intro quality
    unfold speex_int_resampler_new speex_resampler_base_new
    cases L.speex_resampler_init in_channels in_rate out_rate quality <;> rfl
  · intro quality
    unfold speex_float_resampler_new speex_resampler_base_new
    cases L.speex_resampler_init in_channels in_rate out_rate quality <;> rfl

/-- Witness of `create_resampler_speex_or_unrecognized` at the selector
"speex-5". -/
theorem create_resampler_speex_or_unrecognized_witness :
    ¬ "soxr-".toList <+: "speex-5".toList ∧ "speex-".toList <+: "speex-5".toList ∧
    istream_extract_int ("speex-5".toList.drop 6) = 5 ∧
    create_resampler recording_libs "speex-5".toList 8000 1 SF_FORMAT_PCM_16 16000 =
      speex_int_resampler_new recording_libs 8000 1 16000
        (istream_extract_int ("speex-5".toList.drop 6)) :=
  ⟨by decide, by decide, by decide,
   ((create_resampler_speex_or_unrecognized recording_libs "speex-5".toList 8000 1
      SF_FORMAT_PCM_16 16000 (by decide)).1 (by decide)).1 rfl⟩

/-- C5, as stated, fails: the selector "speex--3" starts with "speex-" and
not with "soxr-", and on 16-bit PCM `create_resampler` passes the quality -3
to the constructor of the integer-format speex adapter: the remainder is not
parsed as an unsigned integer. -/
theorem speex_quality_signed_counterexample :
    ¬ "soxr-".toList <+: "speex--3".toList ∧ "speex-".toList <+: "speex--3".toList ∧
    create_resampler recording_libs "speex--3".toList 8000 1 SF_FORMAT_PCM_16 16000 =
      .ok (.speex_int [1, 8000, 16000, -3]) ∧
    ¬ ∃ q : Nat,
      create_resampler recording_libs "speex--3".toList 8000 1 SF_FORMAT_PCM_16 16000 =
        speex_int_resampler_new recording_libs 8000 1 16000 (q : Int) := by
  have h : create_resampler recording_libs "speex--3".toList 8000 1 SF_FORMAT_PCM_16 16000 =
      .ok (.speex_int [1, 8000, 16000, -3]) := by rfl
  refine ⟨by decide, by decide, h, ?_⟩
  rintro ⟨q, hq⟩
  rw [h] at hq
  have h2 : speex_int_resampler_new recording_libs 8000 1 16000 (q : Int) =
      .ok (.speex_int [1, 8000, 16000, (q : Int)]) := rfl
  rw [h2] at hq
  injection hq with hq
  injection hq with hq
  simp only [List.cons.injEq, true_and, and_true] at hq
  omega

/-! ## The program -/

theorem main_try_rate_invalid {σ α : Type} (W : World σ α) (fuel : Nat)
    (argv : List (List Char)) (h5 : 5 ≤ argv.length)
    (hr : istream_extract_int (argv.getD 3 []) ≤ 0) :
    main_try W fuel argv = some ([], .error (.invalid_argument "Invalid sample rate")) := by
  unfold main_try
  rw [if_neg (by omega)]
  simp only [if_pos hr]

theorem main_try_effects_head {σ α : Type} (W : World σ α) (fuel : Nat)
    (argv : List (List Char)) (h5 : 5 ≤ argv.length)
    (hr : 0 < istream_extract_int (argv.getD 3 []))
    (effects : List Effect) (r : Except Exception Unit)
    (h : main_try W fuel argv = some (effects, r)) :
    effects.head? = some (.open_input (argv.getD 1 [])) := by
  unfold main_try at h
  rw [if_neg (by omega)] at h
  simp only [if_neg (not_le.mpr hr)] at h
  split at h
  · simp only [Option.some.injEq, Prod.mk.injEq] at h
    rw [← h.1]
    rfl
  · split at h
    · simp only [Option.some.injEq, Prod.mk.injEq] at h
      rw [← h.1]
      rfl
    · split at h
      · simp only [Option.some.injEq, Prod.mk.injEq] at h
        rw [← h.1]
        rfl
      · split at h
        · simp only [Option.some.injEq, Prod.mk.injEq] at h
          rw [← h.1]
          rfl
        · split at h
          · split at h
            · cases h
            · simp only [Option.some.injEq, Prod.mk.injEq] at h
              rw [← h.1]
              rfl
            · simp only [Option.some.injEq, Prod.mk.injEq] at h
              rw [← h.1]
              rfl
          · split at h
            · split at h
              · cases h
              · simp only [Option.some.injEq, Prod.mk.injEq] at h
                rw [← h.1]
                rfl
              · simp only [Option.some.injEq, Prod.mk.injEq] at h
                rw [← h.1]
                rfl
            · simp only [Option.some.injEq, Prod.mk.injEq] at h
              rw [← h.1]
              rfl

theorem main_effects_of_main_try {σ α : Type} (W : World σ α) (fuel : Nat)
    (argv : List (List Char)) (out : Outcome) (h : main W fuel argv = some out) :
    ∃ r, main_try W fuel argv = some (out.effects, r) := by
  unfold main at h
  split at h
  · cases h
  · next effects e heq =>
    simp only [Option.some.injEq] at h
    subst h
    exact ⟨_, heq⟩
  · next effects u heq =>
    simp only [Option.some.injEq] at h
    subst h
    exact ⟨_, heq⟩

/-- C6, as amended: for every output-sample-rate argument string (given at
least four command-line arguments), if the `int` that stream extraction reads
from the string is not positive (the string has no leading numeral, so is
unparsable as an `int`, or its leading numeral is zero or negative such as
"-5"), `main` raises the ConfigError "Invalid sample rate" and returns exit
code 1 before any input or output file is opened; conversely the rate check
passes, and `main` goes on to open the input file, exactly when that leading
numeral (after optional white space and sign, whatever characters follow it)
is positive: this is so for every string that denotes a positive integer. -/
theorem invalid_rate_exits_before_open {σ α : Type} (W : World σ α) (fuel : Nat)
    (argv : List (List Char)) (h5 : 5 ≤ argv.length) :
    (istream_extract_int (argv.getD 3 []) ≤ 0 →
      main W fuel argv = some { exit_code := 1
                                failure := some (.invalid_argument "Invalid sample rate")
                                effects := [] }) ∧
    (0 < istream_extract_int (argv.getD 3 []) →
      ∀ out, main W fuel argv = some out →
        out.effects.head? = some (.open_input (argv.getD 1 []))) ∧
    (rate_check_passes (argv.getD 3 []) = true ↔ 0 < istream_extract_int (argv.getD 3 [])) ∧
    (denotes_positive_integer (argv.getD 3 []) = true →
      rate_check_passes (argv.getD 3 []) = true) := by
  refine ⟨?_, ?_, ?_, ?_⟩
  · intro hr
    unfold main
    rw [main_try_rate_invalid W fuel argv h5 hr]
  · intro hr out hout
    obtain ⟨r, hr2⟩ := main_effects_of_main_try W fuel argv out hout
    exact main_try_effects_head W fuel argv h5 hr _ r hr2
  · simp [rate_check_passes]
  · intro hd
    simp only [rate_check_passes, decide_eq_true_eq]
    exact istream_extract_int_pos_of_denotes _ hd

/-- Witness of `invalid_rate_exits_before_open` at the rate argument "-5". -/
theorem invalid_rate_exits_before_open_witness :
    istream_extract_int "-5".toList = -5 ∧
    main pcm32_world 0 ["src_test".toList, "in.wav".toList, "speex-5".toList, "-5".toList,
        "out.wav".toList] =
      some { exit_code := 1
             failure := some (.invalid_argument "Invalid sample rate")
             effects := [] } :=
  ⟨by decide,
   (invalid_rate_exits_before_open pcm32_world 0
      ["src_test".toList, "in.wav".toList, "speex-5".toList, "-5".toList, "out.wav".toList]
      (by decide)).1 (by decide)⟩

/-- C6, as stated, fails: the argument "12abc" does not denote a positive
integer, yet the rate check passes for it (extraction reads 12 and leaves
"abc" unread) and `main` goes on to open both files. Likewise "99999999999"
does not fit an `int`, and the check passes for it with the rate `INT_MAX`. -/
theorem rate_trailing_characters_counterexample :
    denotes_positive_integer "12abc".toList = false ∧
    istream_extract_int "12abc".toList = 12 ∧
    rate_check_passes "12abc".toList = true ∧
    main pcm32_world 0 ["src_test".toList, "in.wav".toList, "speex-5".toList,
        "12abc".toList, "out.wav".toList] =
      some { exit_code := 1
             failure := some (.invalid_argument
               "Unsupported sample format for speex resampler")
             effects := [.open_input "in.wav".toList, .open_output "out.wav".toList] } ∧
    istream_extract_int "99999999999".toList = INT_MAX ∧
    rate_check_passes "99999999999".toList = true := by
  refine ⟨by decide, by decide, by decide, by rfl, by decide, by decide⟩

theorem frame_size_lt (r : Int) : frame_size r < 4294968 := by
  unfold frame_size UINT_MOD
  omega

theorem sub_sz_eq (a b : Nat) (hb : b ≤ a) (ha : a < SIZE_MOD) : sub_sz a b = a - b := by
  unfold sub_sz
  unfold SIZE_MOD at *
  omega

theorem add_sz_eq (a b : Nat) (h : a + b < SIZE_MOD) : add_sz a b = a + b := by
  unfold add_sz
  exact Nat.mod_eq_of_lt h

theorem write_at_length {α : Type} (buf : List α) (off : Nat) (xs : List α)
    (h : off + xs.length ≤ buf.length) : (write_at buf off xs).length = buf.length := by
  unfold write_at
  simp only [List.length_append, List.length_take, List.length_drop]
  omega

theorem write_at_nil {α : Type} (buf : List α) (off : Nat) : write_at buf off [] = buf := by
  unfold write_at
  simp

theorem readf_count {α : Type} (f : SndfileIn α) (n : Nat) :
    (f.readf n).count = min n (f.frames - f.pos) := rfl

theorem readf_samples_length {α : Type} (f : SndfileIn α) (n : Nat) :
    (f.readf n).samples.length = (f.readf n).count * f.channels := by
  simp [SndfileIn.readf]

theorem memmove_length {α : Type} (buf : List α) (src n : Nat) :
    (memmove buf 0 src n).length = buf.length := by
  unfold memmove
  apply write_at_length
  simp only [List.length_take, List.length_drop]
  omega

theorem memmove_take {α : Type} (buf : List α) (src n : Nat) (h : src + n ≤ buf.length) :
    (memmove buf 0 src n).take n = (buf.drop src).take n := by
  unfold memmove write_at
  have hl : ((buf.drop src).take n).length = n := by
    simp only [List.length_take, List.length_drop]
    omega
  simp only [List.take_zero, List.nil_append]
  rw [List.take_append_of_le_length (by omega)]
  rw [List.take_eq_self_iff]
  omega

theorem frame_at_of_take_eq {α : Type} (a b : List α) (ch n i : Nat)
    (h : a.take (n * ch) = b.take (n * ch)) (hi : i < n) :
    frame_at a ch i = frame_at b ch i := by
  unfold frame_at
  have hle : i * ch + ch ≤ n * ch := by
    have : (i + 1) * ch ≤ n * ch := Nat.mul_le_mul_right ch hi
    rw [Nat.add_mul, Nat.one_mul] at this
    exact this
  have ha : (a.drop (i * ch)).take ch = ((a.take (n * ch)).drop (i * ch)).take ch := by
    rw [List.drop_take, List.take_take]
    congr 1
    omega
  have hb : (b.drop (i * ch)).take ch = ((b.take (n * ch)).drop (i * ch)).take ch := by
    rw [List.drop_take, List.take_take]
    congr 1
    omega
  rw [ha, hb, h]

theorem frame_at_drop {α : Type} (buf : List α) (ch c i : Nat) :
    frame_at (buf.drop (c * ch)) ch i = frame_at buf ch (c + i) := by
  unfold frame_at
  rw [List.drop_drop, Nat.add_mul]

/-! ## The streaming loop: invariants -/

section LoopLemmas
variable {ρ α : Type}

theorem in_frame_size_lt (st : LoopState ρ α) : in_frame_size st < SIZE_MOD := by
  have := frame_size_lt st.in_file.samplerate
  unfold in_frame_size SIZE_MOD
  omega

theorem packs_to_read_le (st : LoopState ρ α) (h : st.in_size ≤ in_frame_size st) :
    packs_to_read st ≤ in_frame_size st - st.in_size := by
  unfold packs_to_read
  rw [sub_sz_eq _ _ h (in_frame_size_lt st)]
  exact Nat.min_le_left _ _

theorem fill_store_in_bounds (st : LoopState ρ α) (h : BufInv st)
    (hch : 1 ≤ st.in_file.channels) :
    st.in_size + (st.in_file.readf (packs_to_read st)).samples.length ≤ st.in_data.length := by
  rw [readf_samples_length, readf_count, h.2]
  have h1 := packs_to_read_le st h.1
  have hle := h.1
  have h2 : min (packs_to_read st) (st.in_file.frames - st.in_file.pos) ≤
      in_frame_size st - st.in_size := le_trans (Nat.min_le_left _ _) h1
  have h3 : st.in_size + min (packs_to_read st) (st.in_file.frames - st.in_file.pos) ≤
      in_frame_size st := by omega
  have h4 := Nat.mul_le_mul_right st.in_file.channels h3
  rw [Nat.add_mul] at h4
  have h5 : st.in_size ≤ st.in_size * st.in_file.channels :=
    Nat.le_mul_of_pos_right _ hch
  unfold channel_count
  exact le_trans (Nat.add_le_add_right h5 _) h4

theorem fill_store_length (st : LoopState ρ α) (h : BufInv st) :
    (write_at st.in_data st.in_size (st.in_file.readf (packs_to_read st)).samples).length =
      st.in_data.length := by
  rcases Nat.eq_zero_or_pos st.in_file.channels with h0 | hpos
  · have : (st.in_file.readf (packs_to_read st)).samples = [] := by
      apply List.eq_nil_of_length_eq_zero
      rw [readf_samples_length, h0, Nat.mul_zero]
    rw [this, write_at_nil]
  · exact write_at_length _ _ _ (fill_store_in_bounds st h hpos)

/-- What a successful Fill does to the variables. -/
theorem fill_ok (st st1 : LoopState ρ α) (h : BufInv st) (hf : fill st = .ok st1) :
    st1.in_file = { st.in_file with pos := st.in_file.pos + packs_to_read st } ∧
    packs_to_read st ≤ st.in_file.frames - st.in_file.pos ∧
    st1.in_size = st.in_size + packs_to_read st ∧
    st1.in_data.length = st.in_data.length ∧
    st1.total_consumed = st.total_consumed ∧
    st1.total_produced = st.total_produced ∧
    st1.out_file = st.out_file ∧
    st1.log = st.log := by
  unfold fill at hf
  dsimp only at hf
  split_ifs at hf with hne
  simp only [Except.ok.injEq] at hf
  have hcnt : (st.in_file.readf (packs_to_read st)).count = packs_to_read st :=
    not_not.mp hne
  have hle : packs_to_read st ≤ st.in_file.frames - st.in_file.pos := by
    rw [readf_count] at hcnt
    omega
  have hpl := packs_to_read_le st h.1
  have hlt := in_frame_size_lt st
  have hle1 := h.1
  subst hf
  refine ⟨?_, hle, ?_, ?_, rfl, rfl, rfl, rfl⟩
  · show (st.in_file.readf (packs_to_read st)).file = _
    unfold SndfileIn.readf
    simp only
    rw [Nat.min_eq_left hle]
  · show add_sz st.in_size (st.in_file.readf (packs_to_read st)).count = _
    rw [hcnt, add_sz_eq _ _ (by omega)]
  · exact fill_store_length st h

theorem fill_inv (st st1 : LoopState ρ α) (h : BufInv st) (hf : fill st = .ok st1) :
    BufInv st1 := by
  obtain ⟨h1, _, h3, h4, _⟩ := fill_ok st st1 h hf
  have hpl := packs_to_read_le st h.1
  have hle := h.1
  have hfs : in_frame_size st1 = in_frame_size st := by
    unfold in_frame_size
    rw [h1]
  have hcc : channel_count st1 = channel_count st := by
    unfold channel_count
    rw [h1]
  refine ⟨?_, ?_⟩
  · rw [hfs, h3]
    omega
  · rw [hfs, hcc, h4, h.2]

theorem fill_count_inv (st st1 : LoopState ρ α) (h : BufInv st) (hc : CountInv st)
    (hf : fill st = .ok st1) : CountInv st1 := by
  obtain ⟨h1, h2, h3, _, h5, _⟩ := fill_ok st st1 h hf
  unfold CountInv at *
  rw [h1, h3, h5]
  simp only
  omega

/-- What Compact does to the variables when the engine consumed at most the
staged frames. -/
theorem compact_ok (st1 : LoopState ρ α) (r : ProcessResult ρ α) (h : BufInv st1)
    (hr : r.in_consumed ≤ st1.in_size) :
    (compact st1 r).in_file = st1.in_file ∧
    (compact st1 r).in_size = st1.in_size - r.in_consumed ∧
    (compact st1 r).in_data.length = st1.in_data.length ∧
    (compact st1 r).total_consumed = add_sz st1.total_consumed r.in_consumed ∧
    (compact st1 r).total_produced = st1.total_produced ∧
    (compact st1 r).out_file = st1.out_file := by
  have hlt := in_frame_size_lt st1
  refine ⟨rfl, ?_, ?_, rfl, rfl, rfl⟩
  · show sub_sz st1.in_size r.in_consumed = _
    exact sub_sz_eq _ _ hr (lt_of_le_of_lt h.1 hlt)
  · show (memmove st1.in_data 0 _ _).length = _
    exact memmove_length _ _ _

theorem compact_inv (st1 : LoopState ρ α) (r : ProcessResult ρ α) (h : BufInv st1)
    (hr : r.in_consumed ≤ st1.in_size) : BufInv (compact st1 r) := by
  obtain ⟨h1, h2, h3, _⟩ := compact_ok st1 r h hr
  have hfs : in_frame_size (compact st1 r) = in_frame_size st1 := by
    unfold in_frame_size
    rw [h1]
  have hcc : channel_count (compact st1 r) = channel_count st1 := by
    unfold channel_count
    rw [h1]
  refine ⟨?_, ?_⟩
  · rw [hfs, h2]
    exact le_trans (Nat.sub_le _ _) h.1
  · rw [hfs, hcc, h3, h.2]

theorem compact_total_consumed (st1 : LoopState ρ α) (r : ProcessResult ρ α)
    (hc : CountInv st1) (hr : r.in_consumed ≤ st1.in_size)
    (hfr : st1.in_file.frames < 2 ^ 63) :
    (compact st1 r).total_consumed = st1.total_consumed + r.in_consumed := by
  show add_sz st1.total_consumed r.in_consumed = _
  apply add_sz_eq
  unfold CountInv at hc
  unfold SIZE_MOD
  omega

theorem compact_count_inv (st1 : LoopState ρ α) (r : ProcessResult ρ α) (h : BufInv st1)
    (hc : CountInv st1) (hr : r.in_consumed ≤ st1.in_size)
    (hfr : st1.in_file.frames < 2 ^ 63) : CountInv (compact st1 r) := by
  obtain ⟨h1, h2, _⟩ := compact_ok st1 r h hr
  have h4 := compact_total_consumed st1 r hc hr hfr
  unfold CountInv at *
  rw [h1, h2, h4]
  omega

/-- What a successful `write_data` leaves untouched. -/
theorem write_data_ok (st st1 : LoopState ρ α) (n : Nat) (h : write_data st n = .ok st1) :
    st1.in_file = st.in_file ∧ st1.in_size = st.in_size ∧ st1.in_data = st.in_data ∧
    st1.total_consumed = st.total_consumed ∧
    st1.out_file.samplerate = st.out_file.samplerate := by
  unfold write_data at h
  dsimp only at h
  split_ifs at h
  all_goals
    simp only [Except.ok.injEq] at h
    subst h
    exact ⟨rfl, rfl, rfl, rfl, rfl⟩

theorem emit_ok (st st1 : LoopState ρ α) (n : Nat) (h : emit st n = .ok st1) :
    st1.in_file = st.in_file ∧ st1.in_size = st.in_size ∧ st1.in_data = st.in_data ∧
    st1.total_consumed = st.total_consumed ∧
    st1.out_file.samplerate = st.out_file.samplerate := by
  unfold emit at h
  split_ifs at h
  · exact write_data_ok st st1 n h
  · simp only [Except.ok.injEq] at h
    subst h
    exact ⟨rfl, rfl, rfl, rfl, rfl⟩

theorem inv_of_fields (st st1 : LoopState ρ α) (h1 : st1.in_file = st.in_file)
    (h2 : st1.in_size = st.in_size) (h3 : st1.in_data = st.in_data)
    (h4 : st1.total_consumed = st.total_consumed) :
    (BufInv st → BufInv st1) ∧ (CountInv st → CountInv st1) := by
  unfold BufInv CountInv in_frame_size channel_count
  rw [h1, h2, h3, h4]
  exact ⟨id, id⟩

/-- One iteration, taken apart: a successful Fill, then Compact on the result
of Convert, then a successful Emit. -/
theorem loop_body_ok (process : Process ρ α) (st st2 : LoopState ρ α)
    (h : loop_body process st = .ok st2) :
    ∃ st1, fill st = .ok st1 ∧
      emit (compact st1 (convert process st1)) (convert process st1).out_produced = .ok st2 := by
  unfold loop_body at h
  cases hf : fill st with
  | error e =>
    rw [hf] at h
    cases h
  | ok st1 =>
    rw [hf] at h
    exact ⟨st1, rfl, h⟩

theorem convert_consumed_le (process : Process ρ α) (hp : ConsumesAtMostGiven process)
    (st1 : LoopState ρ α) : (convert process st1).in_consumed ≤ st1.in_size :=
  hp _ _ _ _ _

theorem loop_body_inv (process : Process ρ α) (hp : ConsumesAtMostGiven process)
    (st st2 : LoopState ρ α) (h : BufInv st) (hb : loop_body process st = .ok st2) :
    BufInv st2 ∧ st2.in_file.frames = st.in_file.frames ∧
    (CountInv st → st.in_file.frames < 2 ^ 63 →
      CountInv st2 ∧ st.total_consumed ≤ st2.total_consumed) := by
  obtain ⟨st1, hf, he⟩ := loop_body_ok process st st2 hb
  have hr := convert_consumed_le process hp st1
  have hb1 := fill_inv st st1 h hf
  have hb2 := compact_inv st1 _ hb1 hr
  obtain ⟨e1, e2, e3, e4, _⟩ := emit_ok _ st2 _ he
  have hi := inv_of_fields _ st2 e1 e2 e3 e4
  obtain ⟨f1, _, _, _, f5, _⟩ := fill_ok st st1 h hf
  have hfr1 : st1.in_file.frames = st.in_file.frames := by rw [f1]
  refine ⟨hi.1 hb2, ?_, ?_⟩
  · rw [e1]
    exact hfr1
  · intro hc hfr
    have hc1 := fill_count_inv st st1 h hc hf
    have hfr1b : st1.in_file.frames < 2 ^ 63 := by rw [hfr1]; exact hfr
    have hc2 := compact_count_inv st1 _ hb1 hc1 hr hfr1b
    refine ⟨hi.2 hc2, ?_⟩
    rw [e4, compact_total_consumed st1 _ hc1 hr hfr1b, f5]
    omega

theorem initial_inv (in_file : SndfileIn α) (out_file : SndfileOut α) (resampler : ρ)
    (uninit : α) :
    BufInv (initial_state in_file out_file resampler uninit) ∧
    CountInv (initial_state in_file out_file resampler uninit) := by
  refine ⟨⟨Nat.zero_le _, ?_⟩, ?_⟩
  · simp [initial_state, in_frame_size, channel_count]
  · unfold CountInv
    simp only [initial_state]
    omega

theorem reach_inv (process : Process ρ α) (hp : ConsumesAtMostGiven process)
    (st0 st : LoopState ρ α) (h0 : BufInv st0) (hr : Reach process st0 st) :
    BufInv st ∧ st.in_file.frames = st0.in_file.frames ∧
    (CountInv st0 → st0.in_file.frames < 2 ^ 63 → CountInv st) := by
  induction hr with
  | init => exact ⟨h0, rfl, fun h _ => h⟩
  | step _ _ hb ih =>
    obtain ⟨i1, i2, i3⟩ := ih
    obtain ⟨j1, j2, j3⟩ := loop_body_inv process hp _ _ i1 hb
    refine ⟨j1, by rw [j2, i2], ?_⟩
    intro hc hfr
    exact (j3 (i3 hc hfr) (by rw [i2]; exact hfr)).1

end LoopLemmas

section LoopClaims
variable {ρ α : Type}

theorem throttled_consumes_at_most_given (limit : Nat) :
    ConsumesAtMostGiven (throttled_process limit) := by
  intro r in_samples in_size out_samples out_size
  exact Nat.min_le_left _ _

theorem main_loop_total_consumed (process : Process ρ α) (hp : ConsumesAtMostGiven process) :
    ∀ (fuel : Nat) (st st2 : LoopState ρ α), BufInv st → CountInv st →
      st.in_file.frames < 2 ^ 63 → main_loop process fuel st = some (.ok st2) →
      st2.total_consumed = st.in_file.frames ∧ st2.in_size = 0 := by
  intro fuel
  induction fuel with
  | zero =>
    intro st st2 _ _ _ h
    cases h
  | succ n ih =>
    intro st st2 hb hc hfr h
    unfold main_loop at h
    split_ifs at h with hg
    · cases hbody : loop_body process st with
      | error e =>
        rw [hbody] at h
        cases h
      | ok st1 =>
        rw [hbody] at h
        obtain ⟨j1, j2, j3⟩ := loop_body_inv process hp st st1 hb hbody
        have := ih st1 st2 j1 (j3 hc hfr).1 (by rw [j2]; exact hfr) h
        rw [j2] at this
        exact this
    · simp only [Option.some.injEq, Except.ok.injEq] at h
      subst h
      unfold CountInv at hc
      unfold in_count at hg
      omega

theorem drain_loop_total_consumed (process : Process ρ α) :
    ∀ (fuel : Nat) (st st2 : LoopState ρ α), drain_loop process fuel st = some (.ok st2) →
      st2.total_consumed = st.total_consumed := by
  intro fuel
  induction fuel with
  | zero =>
    intro st st2 h
    cases h
  | succ n ih =>
    intro st st2 h
    unfold drain_loop at h
    dsimp only at h
    split_ifs at h with hp
    · cases hw : write_data (flush_call process st).1 (flush_call process st).2 with
      | error e =>
        rw [hw] at h
        cases h
      | ok st1 =>
        rw [hw] at h
        rw [ih st1 st2 h, (write_data_ok _ st1 _ hw).2.2.2.1]
        rfl
    · simp only [Option.some.injEq, Except.ok.injEq] at h
      subst h
      rfl

/-- C1: for every declared frame count, every rates and channel count, and
every engine whose `process` consumes at most the frames it is given:
whenever the main loop of `resampling_loop` ends without an error,
`total_consumed` equals the declared frame count of the source exactly (and
no frame is left staged); the drain loop that follows leaves the count as it
is. -/
theorem total_consumed_eq_frame_count (process : Process ρ α)
    (hp : ConsumesAtMostGiven process) (in_file : SndfileIn α) (out_file : SndfileOut α)
    (resampler : ρ) (uninit : α) (hfr : in_file.frames < 2 ^ 63) (fuel : Nat)
    (st : LoopState ρ α)
    (h : main_loop process fuel (initial_state in_file out_file resampler uninit) =
      some (.ok st)) :
    st.total_consumed = in_file.frames ∧ st.in_size = 0 ∧
    ∀ fuel2 st2, drain_loop process fuel2 st = some (.ok st2) →
      st2.total_consumed = in_file.frames := by
  obtain ⟨hb, hc⟩ := initial_inv in_file out_file resampler uninit
  obtain ⟨h1, h2⟩ := main_loop_total_consumed process hp fuel _ st hb hc hfr h
  refine ⟨h1, h2, ?_⟩
  intro fuel2 st2 hd
  rw [drain_loop_total_consumed process fuel2 st st2 hd]
  exact h1

/-- Witness of `total_consumed_eq_frame_count`: a file of 50 frames at 1000 Hz
(chunks of 20 frames) through an engine that consumes all it is given. -/
theorem total_consumed_eq_frame_count_witness :
    ∃ st, main_loop (throttled_process 1000) 10
        (initial_state (ramp_file 1000 50) (fresh_sink 1000) () 0) = some (.ok st) ∧
      st.total_consumed = 50 := by
  refine ⟨_, rfl, ?_⟩
  exact (total_consumed_eq_frame_count (throttled_process 1000)
    (throttled_consumes_at_most_given 1000) (ramp_file 1000 50) (fresh_sink 1000) () 0
    (by decide) 10 _ rfl).1

/-- C2: in every iteration of the main loop (of a run whose engine has so far
consumed at most what it was given) and for every engine result with
`consumed ≤ staged_before`, after Compact the staged count is
`staged_before - consumed`, and the staged buffer holds at frame positions
`[0, staged_after)` what it held at `[consumed, staged_before)` before the
step, each frame being `channel_count` interleaved samples. -/
theorem compact_moves_staged_frames (process : Process ρ α)
    (hp : ConsumesAtMostGiven process) (in_file : SndfileIn α) (out_file : SndfileOut α)
    (resampler : ρ) (uninit : α) (st st1 : LoopState ρ α)
    (hreach : Reach process (initial_state in_file out_file resampler uninit) st)
    (hfill : fill st = .ok st1) (r : ProcessResult ρ α)
    (hr : r.in_consumed ≤ st1.in_size) :
    (compact st1 r).in_size = st1.in_size - r.in_consumed ∧
    (compact st1 r).in_data.take ((st1.in_size - r.in_consumed) * channel_count st1) =
      (st1.in_data.drop (r.in_consumed * channel_count st1)).take
        ((st1.in_size - r.in_consumed) * channel_count st1) ∧
    (∀ i, i < st1.in_size - r.in_consumed →
      frame_at (compact st1 r).in_data (channel_count st1) i =
        frame_at st1.in_data (channel_count st1) (r.in_consumed + i)) ∧
    (compact st1 r).in_data.length = st1.in_data.length := by
  have hb0 := (initial_inv in_file out_file resampler uninit).1
  have hb := (reach_inv process hp _ st hb0 hreach).1
  have hb1 := fill_inv st st1 hb hfill
  obtain ⟨_, h2, h3, _⟩ := compact_ok st1 r hb1 hr
  have hfit : r.in_consumed * channel_count st1 +
      (st1.in_size - r.in_consumed) * channel_count st1 ≤ st1.in_data.length := by
    rw [← Nat.add_mul, hb1.2]
    apply Nat.mul_le_mul_right
    have := hb1.1
    omega
  have htake : (compact st1 r).in_data.take ((st1.in_size - r.in_consumed) * channel_count st1) =
      (st1.in_data.drop (r.in_consumed * channel_count st1)).take
        ((st1.in_size - r.in_consumed) * channel_count st1) := by
    show (memmove st1.in_data 0 _ (sub_sz st1.in_size r.in_consumed * channel_count st1)).take _
      = _
    have hs : sub_sz st1.in_size r.in_consumed = st1.in_size - r.in_consumed := h2
    rw [hs]
    exact memmove_take _ _ _ hfit
  refine ⟨h2, htake, ?_, h3⟩
  intro i hi
  rw [← frame_at_drop]
  apply frame_at_of_take_eq _ _ _ (st1.in_size - r.in_consumed) i _ hi
  rw [htake]

/-- Witness of `compact_moves_staged_frames`: the second iteration on a file
of 50 frames at 1000 Hz (chunks of 20 frames), with an engine that consumes 12
frames a call: 8 frames are left over from the first iteration, Fill stages 12
more, the engine consumes 12 of the 20, and the 8 frames that were at
positions 12 to 19 are at positions 0 to 7 afterwards. -/
theorem compact_moves_staged_frames_witness :
    ∃ st st1, loop_body (throttled_process 12)
        (initial_state (ramp_file 1000 50) (fresh_sink 1000) () 0) = .ok st ∧
      st.in_size = 8 ∧ fill st = .ok st1 ∧ st1.in_size = 20 ∧
      (convert (throttled_process 12) st1).in_consumed = 12 ∧
      (compact st1 (convert (throttled_process 12) st1)).in_size = 20 - 12 ∧
      frame_at st1.in_data 1 12 = [24] ∧
      frame_at (compact st1 (convert (throttled_process 12) st1)).in_data 1 0 = [24] := by
  refine ⟨_, _, rfl, rfl, rfl, rfl, rfl, ?_, rfl, rfl⟩
  exact (compact_moves_staged_frames (throttled_process 12)
    (throttled_consumes_at_most_given 12) (ramp_file 1000 50) (fresh_sink 1000) () 0 _ _
    (Reach.step Reach.init (by decide) rfl) rfl _ (by decide)).1

/-- C9: state invariant of the main loop, for every engine whose `process`
consumes at most the frames it is given. At the head of every iteration the
staged count `in_size` is at most the capacity `in_frame_size` (so
`in_frame_size - in_size` does not underflow) and the buffer has its allocated
size; the store of Fill ends within the buffer; after Fill, after Convert
(which leaves the count as Fill left it) and after Compact the staged count is
still at most the capacity; and `total_consumed` does not decrease from one
iteration to the next. -/
theorem staged_count_within_capacity (process : Process ρ α)
    (hp : ConsumesAtMostGiven process) (in_file : SndfileIn α) (out_file : SndfileOut α)
    (resampler : ρ) (uninit : α) (hch : 1 ≤ in_file.channels)
    (hfr : in_file.frames < 2 ^ 63) (st : LoopState ρ α)
    (hreach : Reach process (initial_state in_file out_file resampler uninit) st) :
    st.in_size ≤ in_frame_size st ∧
    sub_sz (in_frame_size st) st.in_size = in_frame_size st - st.in_size ∧
    st.in_data.length = in_frame_size st * channel_count st ∧
    st.in_size + (st.in_file.readf (packs_to_read st)).samples.length ≤ st.in_data.length ∧
    (∀ st1, fill st = .ok st1 →
      st1.in_size ≤ in_frame_size st1 ∧
      (compact st1 (convert process st1)).in_size ≤
        in_frame_size (compact st1 (convert process st1)) ∧
      st.total_consumed ≤ (compact st1 (convert process st1)).total_consumed) ∧
    (∀ st2, loop_body process st = .ok st2 →
      st2.in_size ≤ in_frame_size st2 ∧ st.total_consumed ≤ st2.total_consumed) := by
  obtain ⟨hb0, hc0⟩ := initial_inv in_file out_file resampler uninit
  obtain ⟨hb, hfe, hc⟩ := reach_inv process hp _ st hb0 hreach
  have hc := hc hc0 hfr
  have hfr1 : st.in_file.frames < 2 ^ 63 := by rw [hfe]; exact hfr
  have hch1 : 1 ≤ st.in_file.channels := by
    have : ∀ s, Reach process (initial_state in_file out_file resampler uninit) s →
        s.in_file.channels = in_file.channels := by
      intro s hs
      induction hs with
      | init => rfl
      | step hr0 _ hbody ih =>
        obtain ⟨s1, hf, he⟩ := loop_body_ok process _ _ hbody
        have hbi := (reach_inv process hp _ _ hb0 hr0).1
        rw [(emit_ok _ _ _ he).1, (compact_ok s1 _ (fill_inv _ s1 hbi hf)
          (convert_consumed_le process hp s1)).1, (fill_ok _ s1 hbi hf).1]
        exact ih
    rw [this st hreach]
    exact hch
  refine ⟨hb.1, sub_sz_eq _ _ hb.1 (in_frame_size_lt st), hb.2,
    fill_store_in_bounds st hb hch1, ?_, ?_⟩
  · intro st1 hf
    have hb1 := fill_inv st st1 hb hf
    have hr := convert_consumed_le process hp st1
    have hc1 := fill_count_inv st st1 hb hc hf
    obtain ⟨f1, _, _, _, f5, _⟩ := fill_ok st st1 hb hf
    have hfr2 : st1.in_file.frames < 2 ^ 63 := by rw [f1]; exact hfr1
    refine ⟨hb1.1, (compact_inv st1 _ hb1 hr).1, ?_⟩
    rw [compact_total_consumed st1 _ hc1 hr hfr2, f5]
    omega
  · intro st2 hbody
    obtain ⟨j1, _, j3⟩ := loop_body_inv process hp st st2 hb hbody
    exact ⟨j1.1, (j3 hc hfr1).2⟩

/-- Witness of `staged_count_within_capacity`: the head of the second
iteration on a file of 50 frames at 1000 Hz (chunks of 20 frames), with an
engine that consumes 12 frames a call, so that 8 frames are staged. -/
theorem staged_count_within_capacity_witness :
    ∃ st, loop_body (throttled_process 12)
        (initial_state (ramp_file 1000 50) (fresh_sink 1000) () 0) = .ok st ∧
      st.in_size = 8 ∧ in_frame_size st = 20 ∧ st.in_size ≤ in_frame_size st := by
  refine ⟨_, rfl, rfl, rfl, ?_⟩
  exact (staged_count_within_capacity (throttled_process 12)
    (throttled_consumes_at_most_given 12) (ramp_file 1000 50) (fresh_sink 1000) () 0
    (by decide) (by decide) _ (Reach.step Reach.init (by decide) rfl)).1

end LoopClaims

/-! ## The delay report -/

section DelayLemmas
variable {ρ α : Type}

end DelayLemmas

section DelayClaims
variable {ρ α : Type}

/-- C10 fails on the code. A file of 200 frames at 8000 Hz (chunks of 160
frames) through an engine that consumes at most 100 frames a call, which is
at most what it is given: after the first iteration 100 frames are consumed
and 60 are staged, so 40 frames are left in the source, but the second Fill
requests `min(160 - 60, 200 - 100) = 100` frames and the run ends with
"Failed to read samples from the input file". -/
theorem fill_requests_more_than_left :
    ConsumesAtMostGiven (throttled_process 100) ∧
    (∃ st1, loop_body (throttled_process 100)
        (initial_state (ramp_file 8000 200) (fresh_sink 8000) () 0) = .ok st1 ∧
      st1.total_consumed = 100 ∧ st1.in_size = 60 ∧ in_frame_size st1 = 160 ∧
      in_count st1 = 200 ∧ st1.in_file.pos = 160 ∧
      packs_to_read st1 = 100 ∧
      in_count st1 - (st1.total_consumed + st1.in_size) = 40 ∧
      (st1.in_file.readf (packs_to_read st1)).count = 40) ∧
    main_loop (throttled_process 100) 10
        (initial_state (ramp_file 8000 200) (fresh_sink 8000) () 0) =
      some (.error { exn := .runtime_error "Failed to read samples from the input file"
                     log := [Event.process 100 100, Event.delay 100 100 8000 8000] }) := by
  exact ⟨throttled_consumes_at_most_given 100,
    ⟨_, rfl, rfl, rfl, rfl, rfl, rfl, rfl, rfl, rfl⟩, rfl⟩

end DelayClaims

end SrcTest
